import Mathlib

/-!
Verification of the Metaflow interactive viewport subsystem.

The embedding follows `src/app/components/diagram/behavior.ts` (interaction
state machine: `Idle`, `Panning`, `Animating`, the `DiagramBehavior` state
machine) and `src/app/platform/render.ts` (`ShapeRenderer.attach`).
Collaborators whose sources are not part of the repository snapshot
(`common/camera.ts`, `common/kinetics.ts`, `common/animations.ts`,
`diagram.ts`) are modelled from the specification, as marked on each
definition.  JavaScript numbers are idealised as real numbers.
-/

noncomputable section

namespace Metaflow

/-- Modelled from the spec: the `Camera` data model of `common/camera.ts`
(file not under `src/`).  Fields per spec §3: pan offset `cameraX, cameraY`,
zoom factor `scale`, viewport pixel size `visualWidth, visualHeight`. -/
structure Camera where
  cameraX : ℝ
  cameraY : ℝ
  scale : ℝ
  visualWidth : ℝ
  visualHeight : ℝ

namespace Camera

/-- Modelled from the spec: the visible world rectangle is
`(cameraX / scale, cameraY / scale, visualWidth / scale, visualHeight / scale)`. -/
def worldX (c : Camera) : ℝ := c.cameraX / c.scale

/-- Modelled from the spec: top edge of the visible world rectangle. -/
def worldY (c : Camera) : ℝ := c.cameraY / c.scale

/-- Modelled from the spec: width of the visible world rectangle. -/
def projWidth (c : Camera) : ℝ := c.visualWidth / c.scale

/-- Modelled from the spec: height of the visible world rectangle. -/
def projHeight (c : Camera) : ℝ := c.visualHeight / c.scale

/-- Modelled from the spec: world-to-screen projection (x coordinate); the
exact inverse of `castRayX`, sending the left edge of the world rectangle
to screen coordinate 0. -/
def screenX (c : Camera) (wx : ℝ) : ℝ := wx * c.scale - c.cameraX

/-- Modelled from the spec: world-to-screen projection (y coordinate). -/
def screenY (c : Camera) (wy : ℝ) : ℝ := wy * c.scale - c.cameraY

/-- Modelled from the spec: `castRayX(screenCoord)` returns the world
coordinate under a screen point given the current transform. -/
def castRayX (c : Camera) (sx : ℝ) : ℝ := (sx + c.cameraX) / c.scale

/-- Modelled from the spec: `castRayY(screenCoord)`. -/
def castRayY (c : Camera) (sy : ℝ) : ℝ := (sy + c.cameraY) / c.scale

/-- Modelled from the spec: `moveTo(x, y)` is an absolute pan. -/
def moveTo (c : Camera) (x y : ℝ) : Camera :=
  { c with cameraX := x, cameraY := y }

/-- Modelled from the spec: `zoomToAbout(targetScale, anchorWorldX, anchorWorldY)`
zooms while keeping the given world point fixed under the cursor: the new pan
is the solution of `screen(ax, ay)` unchanged at the new scale. -/
def zoomToAbout (c : Camera) (s ax ay : ℝ) : Camera :=
  { c with
    scale := s
    cameraX := ax * s - (ax * c.scale - c.cameraX)
    cameraY := ay * s - (ay * c.scale - c.cameraY) }

end Camera

/-- Limits rectangle in world space (`BaseState.limits` in behavior.ts). -/
structure Limits where
  left : ℝ
  top : ℝ
  right : ℝ
  bottom : ℝ

/-- Default limits of every state instance
(behavior.ts: `{ left: -800, top: -800, right: 2800, bottom: 2800 }`). -/
def defaultLimits : Limits := ⟨-800, -800, 2800, 2800⟩

/-- Modelled from the spec: the configuration flags read off the diagram
component (`diagram.ts` is not under `src/`): `respectLimits`,
`rubberBanding`, `useKinetics`, `animatedNavigation`, and the fixed momentum
threshold of the kinetics contract (spec §4.2). -/
structure Config where
  respectLimits : Bool
  rubberBanding : Bool
  useKinetics : Bool
  animatedNavigation : Bool
  momentumThreshold : ℝ

/-- Maximum zoom constant (`Idle.maxZoom` in behavior.ts). -/
def maxZoom : ℝ := 10

/-- Minimum zoom from the viewport/limits ratio, as computed inside
`Idle.handleZoom`: `(w > h) ? w / l : h / d` with `l`, `d` the extents of the
limits rectangle. -/
def minZoomLimit (lim : Limits) (c : Camera) : ℝ :=
  let w := c.visualWidth
  let h := c.visualHeight
  let l := lim.right - lim.left
  let d := lim.bottom - lim.top
  if w > h then w / l else h / d

/-- Target scale computed by `Idle.handleZoom` before the `zoomToAbout` call:
the raw exponential target `1.002 ^ units * scale`, and, only when limits are
respected, clamped to `maxZoom` from above or raised to the viewport/limits
ratio from below. -/
def idleZoomTarget (cfg : Config) (lim : Limits) (c : Camera) (units : ℝ) : ℝ :=
  let zoom := c.scale
  let factor := (1.002 : ℝ) ^ units
  let target := factor * zoom
  if cfg.respectLimits then
    if maxZoom ≤ target then maxZoom
    else
      let lmt := minZoomLimit lim c
      if target ≤ lmt then lmt else target
  else target

/-- `Idle.handleZoom(x, y, units)`: zooms to the (possibly clamped) target
scale about the world point under the screen position `(x, y)`. -/
def idleHandleZoom (cfg : Config) (lim : Limits) (c : Camera) (x y units : ℝ) : Camera :=
  c.zoomToAbout (idleZoomTarget cfg lim c units) (c.castRayX x) (c.castRayY y)

/-- Modelled from the spec: the kinetics accumulator of `common/kinetics.ts`
(file not under `src/`).  The spec fixes only the interface: `speed` and
`angle` are derived from the most recent drag samples and
`hasEnoughMomentum()` compares `speed` against a fixed threshold, so the
estimated speed and angle are carried as abstract state. -/
structure Kinetics where
  speed : ℝ
  angle : ℝ

/-- Modelled from the spec: a fresh kinetics accumulator has no momentum. -/
def Kinetics.init : Kinetics := ⟨0, 0⟩

/-- Modelled from the spec: `reset()` clears the sample history. -/
def Kinetics.reset (_k : Kinetics) : Kinetics := Kinetics.init

/-- Modelled from the spec: `hasEnoughMomentum()` is true when the estimated
speed exceeds the fixed threshold. -/
def Kinetics.hasEnoughMomentum (cfg : Config) (k : Kinetics) : Bool :=
  decide (cfg.momentumThreshold < k.speed)

/-- Modelled from the spec: `update(dragDeltaX, dragDeltaY)` re-estimates the
fling velocity from the recent samples (vector magnitude and direction).
The rolling-window size of the missing implementation is unspecified, so
the estimate here uses the most recent sample; no claim depends on the
estimation formula. -/
def Kinetics.update (_k : Kinetics) (dx dy : ℝ) : Kinetics :=
  ⟨Real.sqrt (dx ^ 2 + dy ^ 2), Complex.arg ⟨dx, dy⟩⟩

/-- State local to `Panning`: press point, camera anchor, the four
edge-violation flags, and the kinetics accumulator.  In behavior.ts the
accumulator is allocated lazily on entering the state; the abstract
`Kinetics` model lets it live here permanently. -/
structure PanState where
  anchorX : ℝ
  anchorY : ℝ
  pressedX : ℝ
  pressedY : ℝ
  left : Bool
  right : Bool
  bottom : Bool
  top : Bool
  kinetics : Kinetics

/-- Initial panning state (all fields zeroed, no violations). -/
def PanState.init : PanState := ⟨0, 0, 0, 0, false, false, false, false, Kinetics.init⟩

/-- `Panning.resetViolations`. -/
def PanState.resetViolations (p : PanState) : PanState :=
  { p with left := false, right := false, bottom := false, top := false }

/-- `Panning.updateBanding(horizontal, lower, value)`. -/
def updateBanding (p : PanState) (horizontal lower value : Bool) : PanState :=
  if horizontal then
    if lower then { p with left := value } else { p with right := value }
  else
    if lower then { p with top := value } else { p with bottom := value }

/-- `Panning.damp(actual, limit)`: `1 + Math.log10(Math.abs(actual / limit) || 1)`;
the `|| 1` guard maps a zero (or undefined) ratio to 1. -/
def damp (actual limit : ℝ) : ℝ :=
  let r := |actual / limit|
  1 + Real.logb 10 (if r = 0 then 1 else r)

/-- `Panning.handleLimits(horizontal, drag)`: checks the current world
rectangle against the limits; in the banding branches returns the damped
offset and records the violated edge, in the non-banding branches returns a
point just inside the bound, otherwise passes the drag through.  Returns the
offset together with the updated violation flags. -/
def handleLimits (cfg : Config) (lim : Limits) (cam : Camera) (p : PanState)
    (horizontal : Bool) (drag : ℝ) : ℝ × PanState :=
  let minv := if horizontal then cam.worldX else cam.worldY
  let wid := if horizontal then cam.projWidth else cam.projHeight
  let lower := if horizontal then lim.left else lim.top
  let higher := if horizontal then lim.right else lim.bottom
  let band := cfg.rubberBanding
  let scale := cam.scale
  let maxv := minv + wid
  if minv ≤ lower then
    if band then
      let p1 := updateBanding p horizontal true true
      let factor := damp (drag / scale) lower
      (factor * lower * scale, p1)
    else
      (lower + 1, p)
  else
    let p1 := updateBanding p horizontal true false
    if higher ≤ maxv then
      if band then
        let p2 := updateBanding p1 horizontal false true
        let factor := damp (drag / scale + wid) higher
        ((factor * higher - wid) * scale, p2)
      else
        (higher - 1, p1)
    else
      (drag, updateBanding p1 horizontal false false)

/-- `Panning.handleMouseDown(x, y)`: records the press point and the camera
anchor. -/
def panningMouseDown (cam : Camera) (p : PanState) (x y : ℝ) : PanState :=
  { p with pressedX := x, pressedY := y, anchorX := cam.cameraX, anchorY := cam.cameraY }

/-- `Panning.handleMouseMove(x, y)`: computes the raw drag from the press
point and anchor, filters it through `handleLimits` when limits are
respected, updates kinetics when enabled, and pans the camera to the
resulting offset. -/
def panningMouseMove (cfg : Config) (lim : Limits) (cam : Camera) (p : PanState)
    (x y : ℝ) : Camera × PanState :=
  let dragX := p.pressedX - p.anchorX - x
  let dragY := p.pressedY - p.anchorY - y
  let rx := if cfg.respectLimits then handleLimits cfg lim cam p true dragX else (dragX, p)
  let p1 := rx.2
  let ry := if cfg.respectLimits then handleLimits cfg lim cam p1 false dragY else (dragY, p1)
  let p2 := ry.2
  let p3 := if cfg.useKinetics then { p2 with kinetics := p2.kinetics.update dragX dragY } else p2
  (cam.moveTo rx.1 ry.1, p3)

/-- `Panning.calcDisplacement(horizontal, min, max)` exactly as written in
behavior.ts, including the `upper = horizontal ? v.top : v.bottom`
selection. -/
def calcDisplacement (p : PanState) (lim : Limits) (horizontal : Bool)
    (minv maxv : ℝ) : ℝ :=
  let lower := if horizontal then p.left else p.top
  let upper := if horizontal then p.top else p.bottom
  let left := if horizontal then lim.left else lim.top
  let right := if horizontal then lim.right else lim.bottom
  if lower then minv - left else if upper then maxv - right else 0

/-- `Panning.isBanding()`. -/
def isBanding (cfg : Config) (p : PanState) : Bool :=
  cfg.rubberBanding && (p.left || p.right || p.bottom || p.top)

/-- `Panning.isKinetic()`. -/
def isKinetic (cfg : Config) (p : PanState) : Bool :=
  cfg.useKinetics && p.kinetics.hasEnoughMomentum cfg

/-- The three states registered with the machine
(`supportedStates(): ['idle', 'panning', 'animating']`). -/
inductive StateName where
  | idle
  | panning
  | animating
deriving DecidableEq

/-- Modelled from the spec: the interpolators produced by the `Animation`
factories of `common/animations.ts` (file not under `src/`), recorded as
opaque tags with the arguments the behavior code passes. -/
inductive Anim where
  | navigateToItem
  | navigateTo
  | centerOnWorld (x y durationMs : ℝ)
  | throwCamera (speed angle durationMs : ℝ)
deriving DecidableEq

/-- Parameters passed to `goto`: either the `{ x, y }` press point handed to
`Panning.enterState`, or the `AnimationParams` handed to
`Animating.enterState` (a missing `forced` field reads as `false` through
`params.forced || false`). -/
inductive GotoParams where
  | panPoint (x y : ℝ)
  | animParams (forced : Bool) (interpolator : Anim)
deriving DecidableEq

/-- Observable calls made by `goto`, used to state the call order of
`leaveState` and `enterState`. -/
inductive TraceEv where
  | leave (s : StateName)
  | enter (s : StateName)
deriving DecidableEq

/-- The name-keyed state lookup populated in the `DiagramBehavior`
constructor; unknown names resolve to nothing. -/
def lookup (s : String) : Option StateName :=
  if s = "idle" then some .idle
  else if s = "panning" then some .panning
  else if s = "animating" then some .animating
  else none

/-- The `DiagramBehavior` state machine together with the per-state data of
its three state objects and the shared camera.  The `limits` rectangle is
shared here: every state instance carries the same default value and
`adjustLimit` is never called. -/
structure Machine where
  config : Config
  camera : Camera
  limits : Limits
  pan : PanState
  animForced : Bool
  animAnimation : Option Anim
  current : Option StateName
  last : Option StateName

namespace Machine

/-- The `leaveState()` effects: `Idle` does nothing, `Panning` resets
kinetics, anchors, press point and violations, `Animating` stops and clears
a live animation. -/
def applyLeave (m : Machine) : Machine :=
  match m.current with
  | none => m
  | some .idle => m
  | some .panning =>
      let p0 := { m.pan with
        kinetics := m.pan.kinetics.reset
        anchorX := 0, anchorY := 0, pressedX := 0, pressedY := 0 }
      { m with pan := p0.resetViolations }
  | some .animating => { m with animAnimation := none }

/-- The `enterState(params)` effects.  `Idle` does nothing.  `Panning`
re-dispatches `handleMouseDown(params.x || 0, params.y || 0)` when params are
present.  `Animating` stores `forced` and the interpolator and plays it, or,
when params are absent, requests `becomeIdle()`; the request is returned as
the boolean and resolved by `goto`. -/
def enterEffect (m : Machine) (t : StateName) (p : Option GotoParams) : Machine × Bool :=
  match t with
  | .idle => (m, false)
  | .panning =>
      match p with
      | none => (m, false)
      | some (.panPoint x y) =>
          ({ m with pan := panningMouseDown m.camera m.pan x y }, false)
      | some (.animParams _ _) =>
          ({ m with pan := panningMouseDown m.camera m.pan 0 0 }, false)
  | .animating =>
      match p with
      | none => (m, true)
      | some (.animParams f i) =>
          ({ m with animForced := f, animAnimation := some i }, false)
      | some (.panPoint _ _) =>
          ({ m with animForced := false, animAnimation := none }, false)

/-- `DiagramBehavior.goto(state, params)` with an event trace.  A known
target name triggers `leaveState()` of the current state (when one exists),
records the old current state in `last`, installs the new current state and
runs its `enterState(params)`; `Animating.enterState(null)` calls
`becomeIdle()`, which is one further `goto('idle')`.  An unknown name is a
no-op. -/
def gotoT (m : Machine) (s : String) (p : Option GotoParams) : Machine × List TraceEv :=
  match lookup s with
  | none => (m, [])
  | some t =>
      let m1 := m.applyLeave
      let m2 := { m1 with last := m.current, current := some t }
      let r := m2.enterEffect t p
      let tr := (match m.current with
        | some c => [TraceEv.leave c]
        | none => []) ++ [TraceEv.enter t]
      if r.2 then
        let m3 := r.1.applyLeave
        let m4 := { m3 with last := r.1.current, current := some StateName.idle }
        let r2 := m4.enterEffect .idle none
        (r2.1, tr ++ [TraceEv.leave t, TraceEv.enter .idle])
      else
        (r.1, tr)

/-- `goto` without the trace. -/
def goto (m : Machine) (s : String) (p : Option GotoParams) : Machine :=
  (m.gotoT s p).1

/-- Event dispatch for pointer-down.  `Idle` transitions to `Panning` with
the press point; `Panning` re-records press point and anchor; `Animating`
transitions to `Panning` and re-dispatches, inlined here because after
`goto('panning')` the current state is `Panning` — unless the animation is
forced, in which case nothing happens. -/
def handleMouseDown (m : Machine) (x y : ℝ) : Machine :=
  match m.current with
  | some .idle => m.goto "panning" (some (.panPoint x y))
  | some .panning => { m with pan := panningMouseDown m.camera m.pan x y }
  | some .animating =>
      if m.animForced then m
      else
        let m1 := m.goto "panning" none
        { m1 with pan := panningMouseDown m1.camera m1.pan x y }
  | none => m

/-- Event dispatch for pointer-move: only `Panning` reacts. -/
def handleMouseMove (m : Machine) (x y : ℝ) : Machine :=
  match m.current with
  | some .panning =>
      let r := panningMouseMove m.config m.limits m.camera m.pan x y
      { m with camera := r.1, pan := r.2 }
  | _ => m

/-- `Panning.handleMouseUp`: banding violations take precedence and, with
animated navigation, start the `centerOnWorld` correction; without it the
machine becomes idle.  Otherwise sufficient momentum starts `throwCamera`,
and failing both the machine becomes idle. -/
def panningMouseUp (m : Machine) : Machine :=
  if isBanding m.config m.pan then
    if m.config.animatedNavigation then
      let ca := m.camera
      let wX := ca.worldX
      let wW := wX + ca.projWidth
      let wY := ca.worldY
      let wH := wY + ca.projHeight
      let dx := calcDisplacement m.pan m.limits true wX wW
      let dy := calcDisplacement m.pan m.limits false wY wH
      m.goto "animating" (some (.animParams false
        (.centerOnWorld (wX + ca.projWidth / 2 - dx) (wY + ca.projHeight / 2 - dy) 300)))
    else
      m.goto "idle" none
  else if isKinetic m.config m.pan then
    m.goto "animating" (some (.animParams false
      (.throwCamera m.pan.kinetics.speed m.pan.kinetics.angle 333)))
  else
    m.goto "idle" none

/-- Event dispatch for pointer-up: only `Panning` reacts. -/
def handleMouseUp (m : Machine) (_x _y : ℝ) : Machine :=
  match m.current with
  | some .panning => m.panningMouseUp
  | _ => m

/-- Event dispatch for wheel/pinch.  `Idle` zooms in place; `Animating`
cancels into `Idle` and re-dispatches the zoom, inlined here because after
`becomeIdle()` the current state is `Idle` — unless the animation is forced,
in which case nothing happens. -/
def handleZoom (m : Machine) (x y units : ℝ) : Machine :=
  match m.current with
  | some .idle => { m with camera := idleHandleZoom m.config m.limits m.camera x y units }
  | some .panning => m
  | some .animating =>
      if m.animForced then m
      else
        let m1 := m.goto "idle" none
        { m1 with camera := idleHandleZoom m1.config m1.limits m1.camera x y units }
  | none => m

/-- Event dispatch for the stop request: `Animating` becomes idle unless
forced. -/
def handleStop (m : Machine) : Machine :=
  match m.current with
  | some .animating => if m.animForced then m else m.goto "idle" none
  | _ => m

/-- Event dispatch for the abort request: `Animating` becomes idle
unconditionally. -/
def handleAbort (m : Machine) : Machine :=
  match m.current with
  | some .animating => m.goto "idle" none
  | _ => m

end Machine

/-- The `DiagramBehavior` constructor: builds the state lookup, performs the
initial `goto('idle', null)` from an empty current state, and then executes
`this.lastState = this.lookup['idle']`, which overwrites the `lastState`
method with the idle state object and leaves the internal `last` reference
untouched (still undefined). -/
def mkBehavior (cfg : Config) (cam : Camera) : Machine :=
  let m0 : Machine :=
    { config := cfg, camera := cam, limits := defaultLimits, pan := PanState.init
      animForced := false, animAnimation := none, current := none, last := none }
  m0.goto "idle" none

/-- Rendered visual handle tree (render.ts builds PIXI containers whose only
structure the attach logic relies on is the ordered child list). -/
inductive Visual where
  | node (children : List Visual)

/-- Child list of a visual container. -/
def Visual.children : Visual → List Visual
  | .node cs => cs

/-- `container.addChild(child)` appends to the child list. -/
def Visual.addChild (v c : Visual) : Visual :=
  .node (v.children ++ [c])

/-- `ShapeRenderer.attach(node, group)` from render.ts, acting on the two
optional visual handles: it throws when the node has no rendered visual,
when the group has no visual container, or when the content container
`root.children[1]` is missing; otherwise it adds the node visual to the
content container and returns the updated group visual. -/
def attach (nodeVisual groupVisual : Option Visual) : Except String Visual :=
  match nodeVisual with
  | none => .error "Node has no rendered visual"
  | some child =>
      match groupVisual with
      | none => .error "Could not find renderer visual of the given group"
      | some root =>
          match root.children[1]? with
          | none => .error "Could not find low level content container"
          | some content =>
              .ok (Visual.node (root.children.set 1 (content.addChild child)))

end Metaflow

namespace Metaflow

/-- C1: `zoomToAbout` leaves the anchor point fixed on screen: for every
camera with positive scale and every positive target scale and world anchor
`(ax, ay)`, the screen projection of `(ax, ay)` is unchanged by
`zoomToAbout s ax ay`. -/
theorem zoomToAbout_fixes_anchor (c : Camera) (s ax ay : ℝ)
    (h0 : 0 < c.scale) (hs : 0 < s) :
    (c.zoomToAbout s ax ay).screenX ax = c.screenX ax ∧
    (c.zoomToAbout s ax ay).screenY ay = c.screenY ay := by
  clear h0 hs
  constructor <;> simp [Camera.zoomToAbout, Camera.screenX, Camera.screenY]

/-- Helper: base-10 logarithm of a power of ten. -/
theorem logb_ten_pow (n : ℕ) : Real.logb 10 ((10 : ℝ) ^ n) = n := by
  rw [Real.logb_pow]
  simp [Real.logb_self_eq_one (by norm_num : (1 : ℝ) < 10)]

/-- C2 (amended): the scale set by `Idle.handleZoom` is the exponential
target `1.002 ^ units * scale`; when limits are respected it is clamped to
`maxZoom` from above and, below the maximum, raised to the viewport/limits
ratio from below; when limits are not respected it is applied unclamped.
In the spec scenario (scale 1, viewport 800x600, default limits, limits
respected, `units = 500`) the new scale is `1.002 ^ 500`, between 2.71 and
2.72. -/
theorem idleHandleZoom_scale_spec :
    ∀ (cfg : Config) (lim : Limits) (cam : Camera) (x y units : ℝ),
    (cfg.respectLimits = true → maxZoom ≤ (1.002 : ℝ) ^ units * cam.scale →
      (idleHandleZoom cfg lim cam x y units).scale = maxZoom) ∧
    (cfg.respectLimits = true → (1.002 : ℝ) ^ units * cam.scale < maxZoom →
      (idleHandleZoom cfg lim cam x y units).scale =
        (if (1.002 : ℝ) ^ units * cam.scale ≤ minZoomLimit lim cam
         then minZoomLimit lim cam
         else (1.002 : ℝ) ^ units * cam.scale)) ∧
    (cfg.respectLimits = false →
      (idleHandleZoom cfg lim cam x y units).scale = (1.002 : ℝ) ^ units * cam.scale) ∧
    ((idleHandleZoom (⟨true, false, false, false, 0⟩ : Config) defaultLimits
        (Camera.mk 0 0 1 800 600) 400 300 500).scale = (1.002 : ℝ) ^ (500 : ℕ) ∧
      2.71 < (1.002 : ℝ) ^ (500 : ℕ) ∧ (1.002 : ℝ) ^ (500 : ℕ) < 2.72) := by
  have hpow : ((1.002 : ℝ) ^ ((500 : ℝ))) = (1.002 : ℝ) ^ (500 : ℕ) := by
    rw [show ((500 : ℝ)) = ((500 : ℕ) : ℝ) by norm_num, Real.rpow_natCast]
  have hlo : (2.71 : ℝ) < (1.002 : ℝ) ^ (500 : ℕ) := by norm_num
  have hhi : ((1.002 : ℝ) ^ (500 : ℕ)) < 2.72 := by norm_num
  intro cfg lim cam x y units
  refine ⟨fun h1 h2 => ?_, fun h1 h2 => ?_, fun h1 => ?_, ?_, hlo, hhi⟩
  · simp [idleHandleZoom, Camera.zoomToAbout, idleZoomTarget, h1, if_pos h2]
  · simp [idleHandleZoom, Camera.zoomToAbout, idleZoomTarget, h1, if_neg (not_le.mpr h2)]
  · simp [idleHandleZoom, Camera.zoomToAbout, idleZoomTarget, h1]
  · rw [show ((500 : ℝ)) = ((500 : ℕ) : ℝ) by norm_num]
    simp only [idleHandleZoom, Camera.zoomToAbout, idleZoomTarget, minZoomLimit,
      defaultLimits, maxZoom, Real.rpow_natCast]
    norm_num

/-- Witness for C2: a concrete unclamped zoom with limits not respected. -/
theorem idleHandleZoom_scale_spec_witness :
    (⟨false, true, true, true, 0⟩ : Config).respectLimits = false ∧
    (idleHandleZoom (⟨false, true, true, true, 0⟩ : Config) defaultLimits
        (Camera.mk 1 2 3 800 600) 5 6 7).scale = (1.002 : ℝ) ^ ((7 : ℝ)) * 3 :=
  ⟨rfl, (idleHandleZoom_scale_spec (⟨false, true, true, true, 0⟩ : Config) defaultLimits
      (Camera.mk 1 2 3 800 600) 5 6 7).2.2.1 rfl⟩

/-- C3 (amended): with rubber-banding enabled, the bound checks of
`Panning.handleLimits` compare the current (pre-move) world rectangle with
the limits.  When the current world origin is at or below the lower bound,
the applied offset is the damped value
`(1 + log10 |drag / scale / lower|) * lower * scale` and the left/top edge
is recorded as violated; when the current far edge is at or beyond the upper
bound, the applied offset is
`((1 + log10 |(drag / scale + extent) / higher|) * higher - extent) * scale`
and the right/bottom edge is recorded as violated. -/
theorem handleLimits_banding_spec :
    ∀ (cfg : Config) (lim : Limits) (cam : Camera) (p : PanState) (hor : Bool) (drag : ℝ),
    cfg.rubberBanding = true → cam.scale ≠ 0 → drag ≠ 0 →
    (if hor then lim.left else lim.top) ≠ 0 →
    (if hor then lim.right else lim.bottom) ≠ 0 →
    (((if hor then cam.worldX else cam.worldY) ≤ (if hor then lim.left else lim.top) →
      handleLimits cfg lim cam p hor drag =
        ((1 + Real.logb 10 |drag / cam.scale / (if hor then lim.left else lim.top)|) *
            (if hor then lim.left else lim.top) * cam.scale,
          updateBanding p hor true true)) ∧
     ((if hor then lim.left else lim.top) < (if hor then cam.worldX else cam.worldY) →
      (if hor then lim.right else lim.bottom) ≤
        (if hor then cam.worldX else cam.worldY) +
          (if hor then cam.projWidth else cam.projHeight) →
      drag / cam.scale + (if hor then cam.projWidth else cam.projHeight) ≠ 0 →
      handleLimits cfg lim cam p hor drag =
        (((1 + Real.logb 10
              |(drag / cam.scale + (if hor then cam.projWidth else cam.projHeight)) /
                (if hor then lim.right else lim.bottom)|) *
            (if hor then lim.right else lim.bottom) -
            (if hor then cam.projWidth else cam.projHeight)) * cam.scale,
          updateBanding (updateBanding p hor true false) hor false true))) := by
  intro cfg lim cam p hor drag hband hscale hdrag hlow hhigh
  constructor
  · intro hcross
    have hne : |drag / cam.scale / (if hor then lim.left else lim.top)| ≠ 0 :=
      abs_ne_zero.mpr (div_ne_zero (div_ne_zero hdrag hscale) hlow)
    simp only [handleLimits, damp, hband, if_pos hcross, if_true, if_neg hne]
  · intro hin hup hne0
    have hne : |(drag / cam.scale + (if hor then cam.projWidth else cam.projHeight)) /
        (if hor then lim.right else lim.bottom)| ≠ 0 :=
      abs_ne_zero.mpr (div_ne_zero hne0 hhigh)
    simp only [handleLimits, damp, hband, if_neg (not_le.mpr hin), if_pos hup, if_true,
      if_neg hne]

/-- Witness for C3 at a concrete left-bound violation. -/
theorem handleLimits_banding_spec_witness :
    (⟨true, true, false, false, 0⟩ : Config).rubberBanding = true ∧
    (Camera.mk (-800) 0 1 800 600).scale ≠ 0 ∧ ((-400 : ℝ)) ≠ 0 ∧
    (if true then defaultLimits.left else defaultLimits.top) ≠ 0 ∧
    (if true then defaultLimits.right else defaultLimits.bottom) ≠ 0 ∧
    ((if true then (Camera.mk (-800) 0 1 800 600).worldX
        else (Camera.mk (-800) 0 1 800 600).worldY) ≤
      (if true then defaultLimits.left else defaultLimits.top)) ∧
    handleLimits (⟨true, true, false, false, 0⟩ : Config) defaultLimits
        (Camera.mk (-800) 0 1 800 600) PanState.init true (-400) =
      ((1 + Real.logb 10
          |(-400 : ℝ) / (Camera.mk (-800) 0 1 800 600).scale /
            (if true then defaultLimits.left else defaultLimits.top)|) *
          (if true then defaultLimits.left else defaultLimits.top) *
          (Camera.mk (-800) 0 1 800 600).scale,
        updateBanding PanState.init true true true) := by
  refine ⟨rfl, by norm_num, by norm_num, ?_, ?_, ?_, ?_⟩
  · simp [defaultLimits]
  · simp [defaultLimits]
  · simp [defaultLimits, Camera.worldX]
  · exact (handleLimits_banding_spec (⟨true, true, false, false, 0⟩ : Config) defaultLimits
      (Camera.mk (-800) 0 1 800 600) PanState.init true (-400) rfl (by norm_num)
      (by norm_num) (by simp [defaultLimits]) (by simp [defaultLimits])).1
      (by simp [defaultLimits, Camera.worldX])

/-- Helper: in the banding branch for a violated lower bound, `handleLimits`
returns the damped offset and marks the lower edge. -/
theorem handleLimits_lower_band_eq (cfg : Config) (lim : Limits) (cam : Camera)
    (p : PanState) (hor : Bool) (drag : ℝ) (hband : cfg.rubberBanding = true)
    (hcross : (if hor then cam.worldX else cam.worldY) ≤ (if hor then lim.left else lim.top)) :
    handleLimits cfg lim cam p hor drag =
      (damp (drag / cam.scale) (if hor then lim.left else lim.top) *
          (if hor then lim.left else lim.top) * cam.scale,
        updateBanding p hor true true) := by
  simp only [handleLimits, hband, if_pos hcross, if_true]

/-- Helper: the damping factor on a non-degenerate ratio. -/
theorem damp_eq (actual limit : ℝ) (h : actual / limit ≠ 0) :
    damp actual limit = 1 + Real.logb 10 |actual / limit| := by
  simp only [damp, if_neg (abs_ne_zero.mpr h)]

/-- Counterexample for C3 as stated: the code checks the current world
rectangle, not the prospective one.  With rubber-banding enabled, from a
camera inside the limits, a single move whose prospective world origin
crosses the left bound applies the raw drag offset and records no violated
edge, and that raw offset differs from the damped value the claim
prescribes. -/
theorem handleLimits_prospective_counterexample :
    (Machine.handleMouseMove
        ⟨⟨true, true, false, false, 0⟩, ⟨0, 0, 1, 100, 100⟩, defaultLimits,
          PanState.init, false, none, some .panning, some .idle⟩
        8000 0).camera.cameraX = -8000 ∧
    (Machine.handleMouseMove
        ⟨⟨true, true, false, false, 0⟩, ⟨0, 0, 1, 100, 100⟩, defaultLimits,
          PanState.init, false, none, some .panning, some .idle⟩
        8000 0).pan.left = false ∧
    ((-8000 : ℝ)) / 1 ≤ -800 ∧
    (1 + Real.logb 10 |(-8000 : ℝ) / 1 / (-800)|) * (-800) * 1 = -1600 ∧
    ((-8000 : ℝ)) ≠ -1600 := by
  have habs : |(-8000 : ℝ) / 1 / (-800)| = 10 := by norm_num
  refine ⟨?_, ?_, by norm_num, ?_, by norm_num⟩
  · norm_num [Machine.handleMouseMove, panningMouseMove, handleLimits, updateBanding,
      PanState.init, defaultLimits, Camera.worldX, Camera.worldY, Camera.projWidth,
      Camera.projHeight, Camera.moveTo]
  · norm_num [Machine.handleMouseMove, panningMouseMove, handleLimits, updateBanding,
      PanState.init, defaultLimits, Camera.worldX, Camera.worldY, Camera.projWidth,
      Camera.projHeight, Camera.moveTo]
  · rw [habs, Real.logb_self_eq_one (by norm_num : (1 : ℝ) < 10)]
    norm_num

/-- Counterexample for C2 as stated: with limits not respected, the scale is
not clamped to the maximum zoom constant 10 — from scale 8 a wheel event
with `units = 500` leaves the camera scale strictly above 10. -/
theorem idleHandleZoom_unclamped_counterexample :
    10 < (idleHandleZoom (⟨false, false, false, false, 0⟩ : Config) defaultLimits
      (Camera.mk 0 0 8 800 600) 400 300 500).scale := by
  have h : (idleHandleZoom (⟨false, false, false, false, 0⟩ : Config) defaultLimits
      (Camera.mk 0 0 8 800 600) 400 300 500).scale = (1.002 : ℝ) ^ ((500 : ℝ)) * 8 := by
    simp [idleHandleZoom, Camera.zoomToAbout, idleZoomTarget]
  rw [h, show ((500 : ℝ)) = ((500 : ℕ) : ℝ) by norm_num, Real.rpow_natCast]
  have hlo : (2.71 : ℝ) < (1.002 : ℝ) ^ (500 : ℕ) := by norm_num
  nlinarith

/-- Counterexample for C4 as stated: no fixed constant K bounds the damped
camera offset by `limit * K` for every drag amount — at the default left
bound (distance 800) with scale 1, a drag of `-800 * 10 ^ n` produces a
damped offset of magnitude `800 * (n + 1)`, which exceeds `800 * K` once
`n > K`. -/
theorem damp_offset_unbounded_counterexample :
    ¬ ∃ K : ℝ, ∀ d : ℝ,
      |(handleLimits (⟨true, true, false, false, 0⟩ : Config) defaultLimits
          (Camera.mk (-800) 0 1 800 600) PanState.init true d).1| ≤ 800 * K := by
  rintro ⟨K, hK⟩
  obtain ⟨n, hn⟩ := exists_nat_gt K
  have hd := hK (-800 * 10 ^ n)
  have hcross : (if true then (Camera.mk (-800) 0 1 800 600).worldX
      else (Camera.mk (-800) 0 1 800 600).worldY) ≤
      (if true then defaultLimits.left else defaultLimits.top) := by
    simp [Camera.worldX, defaultLimits]
  rw [handleLimits_lower_band_eq _ _ _ _ _ _ rfl hcross] at hd
  have hdiv : ((-800 : ℝ) * 10 ^ n) / (Camera.mk (-800) 0 1 800 600).scale /
      (if true then defaultLimits.left else defaultLimits.top) = 10 ^ n := by
    simp [defaultLimits]
  rw [damp_eq _ _ (by rw [hdiv]; positivity)] at hd
  rw [hdiv, abs_of_pos (by positivity : (0 : ℝ) < 10 ^ n), logb_ten_pow n] at hd
  have h1n : (0 : ℝ) ≤ 1 + (n : ℝ) := by positivity
  norm_num [defaultLimits, abs_mul, abs_of_nonneg h1n] at hd
  nlinarith [hn]

/-- C4 (amended): the damped offset is not bounded by any fixed multiple of
the limit, but its growth in the drag amount is logarithmic: in the damped
lower-bound branch, whenever the drag magnitude lies between
`scale * |lower|` and `scale * |lower| * 10 ^ (K - 1)`, the offset magnitude
is at most `K * |lower| * scale`. -/
theorem damp_offset_log_growth :
    ∀ (cfg : Config) (lim : Limits) (cam : Camera) (p : PanState) (hor : Bool)
      (drag : ℝ) (K : ℕ),
    cfg.rubberBanding = true → 0 < cam.scale → 1 ≤ K →
    (if hor then lim.left else lim.top) < 0 →
    (if hor then cam.worldX else cam.worldY) ≤ (if hor then lim.left else lim.top) →
    cam.scale * -(if hor then lim.left else lim.top) ≤ |drag| →
    |drag| ≤ cam.scale * -(if hor then lim.left else lim.top) * 10 ^ (K - 1) →
    |(handleLimits cfg lim cam p hor drag).1| ≤
      (K : ℝ) * -(if hor then lim.left else lim.top) * cam.scale := by
  intro cfg lim cam p hor drag K hband hscale hK hL hcross hdlo hdhi
  rw [handleLimits_lower_band_eq _ _ _ _ _ _ hband hcross]
  set lower := (if hor then lim.left else lim.top) with hlower
  have hLpos : (0 : ℝ) < -lower := by linarith
  have hprod : (0 : ℝ) < cam.scale * -lower := mul_pos hscale hLpos
  have hr : |drag / cam.scale / lower| = |drag| / (cam.scale * -lower) := by
    rw [abs_div, abs_div, abs_of_pos hscale, abs_of_neg hL, div_div]
  have hr1 : (1 : ℝ) ≤ |drag| / (cam.scale * -lower) :=
    (one_le_div hprod).mpr hdlo
  have hrpos : (0 : ℝ) < |drag| / (cam.scale * -lower) := by linarith
  have hr2 : |drag| / (cam.scale * -lower) ≤ (10 : ℝ) ^ (K - 1) :=
    (div_le_iff hprod).mpr (by
      calc |drag| ≤ cam.scale * -lower * 10 ^ (K - 1) := hdhi
        _ = 10 ^ (K - 1) * (cam.scale * -lower) := by ring)
  have hdragpos : (0 : ℝ) < |drag| := lt_of_lt_of_le hprod hdlo
  have hratio_ne : drag / cam.scale / lower ≠ 0 := by
    rw [← abs_ne_zero, hr]
    exact ne_of_gt (div_pos hdragpos hprod)
  rw [damp_eq _ _ hratio_ne, hr]
  have hlogb0 : 0 ≤ Real.logb 10 (|drag| / (cam.scale * -lower)) :=
    Real.logb_nonneg (by norm_num) hr1
  have hlogbK : Real.logb 10 (|drag| / (cam.scale * -lower)) ≤ (K : ℝ) - 1 := by
    have h10 : (0 : ℝ) < 10 ^ (K - 1) := by positivity
    have hle := (Real.logb_le_logb (by norm_num : (1 : ℝ) < 10) hrpos h10).mpr hr2
    rwa [logb_ten_pow, Nat.cast_sub hK, Nat.cast_one] at hle
  have habs : |(1 + Real.logb 10 (|drag| / (cam.scale * -lower))) * lower * cam.scale|
      = (1 + Real.logb 10 (|drag| / (cam.scale * -lower))) * -lower * cam.scale := by
    rw [abs_mul, abs_mul,
      abs_of_nonneg (by linarith : (0 : ℝ) ≤ 1 + Real.logb 10 (|drag| / (cam.scale * -lower))),
      abs_of_neg hL, abs_of_pos hscale]
  rw [habs]
  have hfK : 1 + Real.logb 10 (|drag| / (cam.scale * -lower)) ≤ (K : ℝ) := by linarith
  exact mul_le_mul_of_nonneg_right (mul_le_mul_of_nonneg_right hfK hLpos.le) hscale.le

/-- Witness for C4 at the default left bound, scale 1, drag -8000, K = 2. -/
theorem damp_offset_log_growth_witness :
    (⟨true, true, false, false, 0⟩ : Config).rubberBanding = true ∧
    (0 : ℝ) < (Camera.mk (-800) 0 1 800 600).scale ∧ 1 ≤ 2 ∧
    (if true then defaultLimits.left else defaultLimits.top) < 0 ∧
    ((if true then (Camera.mk (-800) 0 1 800 600).worldX
        else (Camera.mk (-800) 0 1 800 600).worldY) ≤
      (if true then defaultLimits.left else defaultLimits.top)) ∧
    (Camera.mk (-800) 0 1 800 600).scale *
        -(if true then defaultLimits.left else defaultLimits.top) ≤ |(-8000 : ℝ)| ∧
    |(-8000 : ℝ)| ≤ (Camera.mk (-800) 0 1 800 600).scale *
        -(if true then defaultLimits.left else defaultLimits.top) * 10 ^ (2 - 1) ∧
    |(handleLimits (⟨true, true, false, false, 0⟩ : Config) defaultLimits
        (Camera.mk (-800) 0 1 800 600) PanState.init true (-8000)).1| ≤
      ((2 : ℕ) : ℝ) * -(if true then defaultLimits.left else defaultLimits.top) *
        (Camera.mk (-800) 0 1 800 600).scale :=
  ⟨rfl, by norm_num, by norm_num, by norm_num [defaultLimits],
    by norm_num [defaultLimits, Camera.worldX], by norm_num [defaultLimits],
    by norm_num [defaultLimits],
    damp_offset_log_growth (⟨true, true, false, false, 0⟩ : Config) defaultLimits
      (Camera.mk (-800) 0 1 800 600) PanState.init true (-8000) 2 rfl (by norm_num)
      (by norm_num) (by norm_num [defaultLimits])
      (by norm_num [defaultLimits, Camera.worldX]) (by norm_num [defaultLimits])
      (by norm_num [defaultLimits])⟩

/-- C8 (amended): with limits respected and rubber-banding disabled, the
bound checks of `Panning.handleLimits` compare the current (pre-move) world
rectangle with the limits: when the current world origin is at or below the
lower bound, the offset is pinned to `lower + 1`; else when the current far
edge is at or beyond the upper bound, to `higher - 1`; otherwise the raw
drag is applied unchanged — a single large move from inside the limits can
therefore cross a bound. -/
theorem handleLimits_noband_spec :
    ∀ (cfg : Config) (lim : Limits) (cam : Camera) (p : PanState) (hor : Bool) (drag : ℝ),
    cfg.rubberBanding = false →
    (((if hor then cam.worldX else cam.worldY) ≤ (if hor then lim.left else lim.top) →
      handleLimits cfg lim cam p hor drag = ((if hor then lim.left else lim.top) + 1, p)) ∧
     ((if hor then lim.left else lim.top) < (if hor then cam.worldX else cam.worldY) →
      (if hor then lim.right else lim.bottom) ≤
        (if hor then cam.worldX else cam.worldY) +
          (if hor then cam.projWidth else cam.projHeight) →
      handleLimits cfg lim cam p hor drag =
        ((if hor then lim.right else lim.bottom) - 1, updateBanding p hor true false)) ∧
     ((if hor then lim.left else lim.top) < (if hor then cam.worldX else cam.worldY) →
      (if hor then cam.worldX else cam.worldY) +
          (if hor then cam.projWidth else cam.projHeight) <
        (if hor then lim.right else lim.bottom) →
      handleLimits cfg lim cam p hor drag =
        (drag, updateBanding (updateBanding p hor true false) hor false false))) := by
  intro cfg lim cam p hor drag hband
  refine ⟨fun hcross => ?_, fun hin hup => ?_, fun hin hlt => ?_⟩
  · simp [handleLimits, hband, if_pos hcross]
  · simp [handleLimits, hband, if_neg (not_le.mpr hin), if_pos hup]
  · simp [handleLimits, hband, if_neg (not_le.mpr hin), if_neg (not_le.mpr hlt)]

/-- Witness for C8 at a concrete left-bound pin. -/
theorem handleLimits_noband_spec_witness :
    (⟨true, false, false, false, 0⟩ : Config).rubberBanding = false ∧
    ((if true then (Camera.mk (-800) 0 1 800 600).worldX
        else (Camera.mk (-800) 0 1 800 600).worldY) ≤
      (if true then defaultLimits.left else defaultLimits.top)) ∧
    handleLimits (⟨true, false, false, false, 0⟩ : Config) defaultLimits
        (Camera.mk (-800) 0 1 800 600) PanState.init true (-123) =
      ((if true then defaultLimits.left else defaultLimits.top) + 1, PanState.init) :=
  ⟨rfl, by norm_num [defaultLimits, Camera.worldX],
    (handleLimits_noband_spec (⟨true, false, false, false, 0⟩ : Config) defaultLimits
      (Camera.mk (-800) 0 1 800 600) PanState.init true (-123) rfl).1
      (by norm_num [defaultLimits, Camera.worldX])⟩

/-- Counterexample for C8 as stated: with limits respected and banding
disabled, a single pointer-move from a camera inside the limits applies the
raw drag and leaves the world origin far beyond the left bound — the camera
does cross the bound instead of stopping within 1 px of it. -/
theorem handleLimits_noband_crossing_counterexample :
    (Machine.handleMouseMove
        ⟨⟨true, false, false, false, 0⟩, ⟨0, 0, 1, 100, 100⟩, defaultLimits,
          PanState.init, false, none, some .panning, some .idle⟩
        9000 0).camera.worldX = -9000 ∧
    ((-9000 : ℝ)) < defaultLimits.left := by
  constructor
  · norm_num [Machine.handleMouseMove, panningMouseMove, handleLimits, updateBanding,
      PanState.init, defaultLimits, Camera.worldX, Camera.worldY, Camera.projWidth,
      Camera.projHeight, Camera.moveTo]
  · norm_num [defaultLimits]

/-- C5 (amended): release precedence in `Panning.handleMouseUp`.  When
rubber-banding is enabled and an edge is marked violated (`isBanding`): with
animated navigation the machine transitions to `Animating` with a
`centerOnWorld` interpolator regardless of momentum, but with animated
navigation disabled it goes directly to `Idle`.  Without a banding
violation, sufficient momentum yields `Animating` with a `throwCamera`
interpolator, and otherwise the machine goes directly to `Idle`. -/
theorem panningMouseUp_spec :
    ∀ (m : Machine) (x y : ℝ),
    m.current = some .panning →
    ((isBanding m.config m.pan = true → m.config.animatedNavigation = true →
      (m.handleMouseUp x y).current = some .animating ∧
      (m.handleMouseUp x y).animAnimation = some (.centerOnWorld
        (m.camera.worldX + m.camera.projWidth / 2 -
          calcDisplacement m.pan m.limits true m.camera.worldX
            (m.camera.worldX + m.camera.projWidth))
        (m.camera.worldY + m.camera.projHeight / 2 -
          calcDisplacement m.pan m.limits false m.camera.worldY
            (m.camera.worldY + m.camera.projHeight))
        300) ∧
      (m.handleMouseUp x y).animForced = false) ∧
     (isBanding m.config m.pan = true → m.config.animatedNavigation = false →
      (m.handleMouseUp x y).current = some .idle) ∧
     (isBanding m.config m.pan = false → isKinetic m.config m.pan = true →
      (m.handleMouseUp x y).current = some .animating ∧
      (m.handleMouseUp x y).animAnimation =
        some (.throwCamera m.pan.kinetics.speed m.pan.kinetics.angle 333) ∧
      (m.handleMouseUp x y).animForced = false) ∧
     (isBanding m.config m.pan = false → isKinetic m.config m.pan = false →
      (m.handleMouseUp x y).current = some .idle)) := by
  intro m x y hcur
  refine ⟨fun h1 h2 => ?_, fun h1 h2 => ?_, fun h1 h2 => ?_, fun h1 h2 => ?_⟩ <;>
    simp [Machine.handleMouseUp, hcur, Machine.panningMouseUp, h1, h2,
      Machine.goto, Machine.gotoT, lookup, Machine.applyLeave, Machine.enterEffect]

/-- Witness for C5: a concrete momentum release into the fling animation. -/
theorem panningMouseUp_spec_witness :
    (Machine.mk ⟨true, true, true, true, 1⟩ ⟨0, 0, 1, 800, 600⟩ defaultLimits
        ⟨0, 0, 0, 0, false, false, false, false, ⟨5, 2⟩⟩ false none
        (some .panning) (some .idle)).current = some .panning ∧
    isBanding (⟨true, true, true, true, 1⟩ : Config)
      (⟨0, 0, 0, 0, false, false, false, false, ⟨5, 2⟩⟩ : PanState) = false ∧
    isKinetic (⟨true, true, true, true, 1⟩ : Config)
      (⟨0, 0, 0, 0, false, false, false, false, ⟨5, 2⟩⟩ : PanState) = true ∧
    ((Machine.mk ⟨true, true, true, true, 1⟩ ⟨0, 0, 1, 800, 600⟩ defaultLimits
        ⟨0, 0, 0, 0, false, false, false, false, ⟨5, 2⟩⟩ false none
        (some .panning) (some .idle)).handleMouseUp 7 8).current = some .animating ∧
    ((Machine.mk ⟨true, true, true, true, 1⟩ ⟨0, 0, 1, 800, 600⟩ defaultLimits
        ⟨0, 0, 0, 0, false, false, false, false, ⟨5, 2⟩⟩ false none
        (some .panning) (some .idle)).handleMouseUp 7 8).animAnimation =
      some (.throwCamera 5 2 333) := by
  have hkin : isKinetic (⟨true, true, true, true, 1⟩ : Config)
      (⟨0, 0, 0, 0, false, false, false, false, ⟨5, 2⟩⟩ : PanState) = true := by
    simp [isKinetic, Kinetics.hasEnoughMomentum]
  have h := panningMouseUp_spec
    (Machine.mk ⟨true, true, true, true, 1⟩ ⟨0, 0, 1, 800, 600⟩ defaultLimits
      ⟨0, 0, 0, 0, false, false, false, false, ⟨5, 2⟩⟩ false none
      (some .panning) (some .idle)) 7 8 rfl
  exact ⟨rfl, rfl, hkin, (h.2.2.1 rfl hkin).1, (h.2.2.1 rfl hkin).2.1⟩

/-- Counterexample for C5 as stated: with an edge marked violated but
animated navigation disabled, releasing the pointer transitions the machine
directly to `Idle`, not to `Animating` with a correction interpolator. -/
theorem panning_release_banding_counterexample :
    ((Machine.mk ⟨true, true, true, false, 0⟩ ⟨0, 0, 1, 100, 100⟩ defaultLimits
        ⟨0, 0, 0, 0, true, false, false, false, ⟨5, 0⟩⟩ false none
        (some .panning) (some .idle)).handleMouseUp 0 0).current = some .idle ∧
    isBanding (⟨true, true, true, false, 0⟩ : Config)
      (⟨0, 0, 0, 0, true, false, false, false, ⟨5, 0⟩⟩ : PanState) = true ∧
    some StateName.idle ≠ some StateName.animating := by
  refine ⟨?_, rfl, by simp⟩
  simp [Machine.handleMouseUp, Machine.panningMouseUp, isBanding,
    Machine.goto, Machine.gotoT, lookup, Machine.applyLeave, Machine.enterEffect]

/-- C6: while `Animating` with `forced = true`, pointer-down, wheel and stop
events leave the machine completely unchanged (in particular pointer-down
does not transition to `Panning`), and an abort request transitions to
`Idle` unconditionally. -/
theorem animating_forced_spec :
    ∀ (m : Machine) (x y u : ℝ),
    m.current = some .animating → m.animForced = true →
    (m.handleMouseDown x y = m ∧ m.handleZoom x y u = m ∧ m.handleStop = m ∧
      (m.handleAbort).current = some .idle) := by
  intro m x y u hcur hforce
  refine ⟨?_, ?_, ?_, ?_⟩ <;>
    simp [Machine.handleMouseDown, Machine.handleZoom, Machine.handleStop,
      Machine.handleAbort, hcur, hforce, Machine.goto, Machine.gotoT, lookup,
      Machine.applyLeave, Machine.enterEffect]

/-- Witness for C6 at a concrete forced animation state. -/
theorem animating_forced_spec_witness :
    (Machine.mk ⟨true, true, true, true, 0⟩ ⟨0, 0, 1, 800, 600⟩ defaultLimits
        PanState.init true (some .navigateTo) (some .animating)
        (some .idle)).current = some .animating ∧
    (Machine.mk ⟨true, true, true, true, 0⟩ ⟨0, 0, 1, 800, 600⟩ defaultLimits
        PanState.init true (some .navigateTo) (some .animating)
        (some .idle)).animForced = true ∧
    ((Machine.mk ⟨true, true, true, true, 0⟩ ⟨0, 0, 1, 800, 600⟩ defaultLimits
        PanState.init true (some .navigateTo) (some .animating)
        (some .idle)).handleMouseDown 3 4 =
      Machine.mk ⟨true, true, true, true, 0⟩ ⟨0, 0, 1, 800, 600⟩ defaultLimits
        PanState.init true (some .navigateTo) (some .animating) (some .idle)) ∧
    ((Machine.mk ⟨true, true, true, true, 0⟩ ⟨0, 0, 1, 800, 600⟩ defaultLimits
        PanState.init true (some .navigateTo) (some .animating)
        (some .idle)).handleAbort).current = some .idle := by
  have h := animating_forced_spec
    (Machine.mk ⟨true, true, true, true, 0⟩ ⟨0, 0, 1, 800, 600⟩ defaultLimits
      PanState.init true (some .navigateTo) (some .animating) (some .idle)) 3 4 0 rfl rfl
  exact ⟨rfl, rfl, h.1, h.2.2.2⟩

/-- C7: for every `goto(state, params)` call with a supported target name,
the machine first calls the current state's `leaveState()` (when a current
state exists), then installs the target with `last` set to the previous
current state, then calls the target's `enterState(params)` — the trace
shows the call order, and except for the self-transitioning case of
`Animating.enterState(null)` the resulting current state is the target and
`last` is the previous current state.  An unknown target name is a no-op
that changes neither the state nor the history. -/
theorem goto_spec :
    ∀ (m : Machine) (s : String) (p : Option GotoParams),
    (lookup s = none → m.gotoT s p = (m, [])) ∧
    (∀ t : StateName, lookup s = some t →
      ((m.gotoT s p).2 = (match m.current with
          | some c => [TraceEv.leave c]
          | none => []) ++ [TraceEv.enter t] ++
        (if t = .animating ∧ p = none then [TraceEv.leave t, TraceEv.enter .idle]
         else []) ∧
       (¬(t = .animating ∧ p = none) →
         (m.goto s p).current = some t ∧ (m.goto s p).last = m.current) ∧
       (t = .animating → p = none →
         (m.goto s p).current = some .idle ∧ (m.goto s p).last = some .animating))) := by
  intro m s p
  refine ⟨fun h => by simp [Machine.gotoT, h], fun t ht => ?_⟩
  rcases t with _ | _ | _ <;>
    rcases p with _ | (⟨px, py⟩ | ⟨pf, pi⟩) <;>
      simp [Machine.gotoT, ht, Machine.goto, Machine.enterEffect, Machine.applyLeave]

/-- Witness for C7: a concrete transition to `Panning` and a concrete no-op
on an unsupported name. -/
theorem goto_spec_witness :
    lookup "panning" = some StateName.panning ∧ lookup "editing" = none ∧
    ((Machine.mk ⟨true, true, true, true, 0⟩ ⟨0, 0, 1, 800, 600⟩ defaultLimits
        PanState.init false none (some .idle) none).goto "panning"
          (some (.panPoint 3 4))).current = some .panning ∧
    ((Machine.mk ⟨true, true, true, true, 0⟩ ⟨0, 0, 1, 800, 600⟩ defaultLimits
        PanState.init false none (some .idle) none).goto "panning"
          (some (.panPoint 3 4))).last = some .idle ∧
    (Machine.mk ⟨true, true, true, true, 0⟩ ⟨0, 0, 1, 800, 600⟩ defaultLimits
        PanState.init false none (some .idle) none).gotoT "editing"
          (some (.panPoint 3 4)) =
      (Machine.mk ⟨true, true, true, true, 0⟩ ⟨0, 0, 1, 800, 600⟩ defaultLimits
        PanState.init false none (some .idle) none, []) := by
  have h := goto_spec
    (Machine.mk ⟨true, true, true, true, 0⟩ ⟨0, 0, 1, 800, 600⟩ defaultLimits
      PanState.init false none (some .idle) none) "panning" (some (.panPoint 3 4))
  have h2 := (h.2 StateName.panning rfl).2.1 (by simp)
  have h3 := goto_spec
    (Machine.mk ⟨true, true, true, true, 0⟩ ⟨0, 0, 1, 800, 600⟩ defaultLimits
      PanState.init false none (some .idle) none) "editing" (some (.panPoint 3 4))
  exact ⟨rfl, rfl, h2.1, h2.2, h3.1 rfl⟩

/-- C9: `ShapeRenderer.attach` fails exactly when the node has no rendered
visual, or the group has no visual container or its content container
`children[1]` is missing; on success the node visual is appended to the
content container's children. -/
theorem attach_spec :
    ∀ (nodeVisual groupVisual : Option Visual),
    ((∃ e, attach nodeVisual groupVisual = .error e) ↔
      (nodeVisual = none ∨ groupVisual.bind (fun r => r.children[1]?) = none)) ∧
    (∀ child root content, nodeVisual = some child → groupVisual = some root →
      root.children[1]? = some content →
      attach nodeVisual groupVisual =
        .ok (Visual.node (root.children.set 1 (content.addChild child)))) := by
  intro nv gv
  constructor
  · rcases nv with _ | child
    · simp [attach]
    · rcases gv with _ | root
      · simp [attach]
      · rcases h1 : root.children[1]? with _ | content <;> simp [attach, h1]
  · rintro child root content rfl rfl h3
    simp [attach, h3]

/-- Witness for C9: a successful attach into a concrete two-child group
visual, and a concrete failure for a node without a visual. -/
theorem attach_spec_witness :
    (Visual.node [Visual.node [], Visual.node []]).children[1]? =
      some (Visual.node []) ∧
    attach (some (Visual.node []))
        (some (Visual.node [Visual.node [], Visual.node []])) =
      .ok (Visual.node [Visual.node [], Visual.node [Visual.node []]]) ∧
    (∃ e, attach none (some (Visual.node [Visual.node [], Visual.node []])) =
      .error e) := by
  refine ⟨rfl, ?_, ?_⟩
  · have h := (attach_spec (some (Visual.node []))
      (some (Visual.node [Visual.node [], Visual.node []]))).2
      (Visual.node [])
      (Visual.node [Visual.node [], Visual.node []]) (Visual.node []) rfl rfl rfl
    simpa [Visual.addChild, Visual.children] using h
  · exact (attach_spec none
      (some (Visual.node [Visual.node [], Visual.node []]))).1.mpr (Or.inl rfl)

/-- C10: immediately after construction the current state is `idle`, but the
internal last-state reference is still unset (the constructor's final
assignment overwrites the `lastState` method with the idle state object and
never initializes the internal `last` field), so no last-state name is
available until a post-construction transition has occurred — after a first
transition, `last` holds `idle`. -/
theorem behavior_construction_spec :
    ∀ (cfg : Config) (cam : Camera),
    (mkBehavior cfg cam).current = some .idle ∧
    (mkBehavior cfg cam).last = none ∧
    ∀ p : Option GotoParams, ((mkBehavior cfg cam).goto "panning" p).last = some .idle := by
  intro cfg cam
  refine ⟨rfl, rfl, fun p => ?_⟩
  rcases p with _ | (⟨px, py⟩ | ⟨pf, pi⟩) <;>
    simp [mkBehavior, Machine.goto, Machine.gotoT, lookup, Machine.applyLeave,
      Machine.enterEffect]

/-- Witness for C1 at a concrete camera, anchor and target scale. -/
theorem zoomToAbout_fixes_anchor_witness :
    0 < (Camera.mk 30 40 2 800 600).scale ∧ 0 < (5 : ℝ) ∧
    ((Camera.mk 30 40 2 800 600).zoomToAbout 5 7 9).screenX 7
      = (Camera.mk 30 40 2 800 600).screenX 7 ∧
    ((Camera.mk 30 40 2 800 600).zoomToAbout 5 7 9).screenY 9
      = (Camera.mk 30 40 2 800 600).screenY 9 :=
  ⟨by norm_num, by norm_num,
    zoomToAbout_fixes_anchor (Camera.mk 30 40 2 800 600) 5 7 9
      (by norm_num) (by norm_num)⟩

end Metaflow
